import Mathlib

/-!
Verification of `utils.py` (fragile_thermostat): a synthetic-data generator
(`generate_mock_data`), a row-wise evaluator (`eval_data` with helper
`_measure_impact`), and chart renderers (`generate_plot`,
`generate_pie_chart`).  Numeric columns are modelled over `ℚ`; Python's
`round(x, 2)` is modelled by `round2` (round half to even, as Python does).
Date strings of the form "2024-m-d" are modelled by their year/month/day
components (the encoding is lossless and the source only ever splits the
string back into those components).  The global random stream is modelled
by an oracle supplying one arbitrary natural number per draw; `randint a b`
maps a draw into `[a, b]` exactly when `a ≤ b` (Python's `random.randint`
raises otherwise, modelled by `Option`).
-/

namespace FragileThermostat

/-- Round an exact rational to the nearest integer, ties to even
(the rounding Python's builtin `round` performs). -/
def roundHalfEven (q : ℚ) : ℤ :=
  if q - (⌊q⌋ : ℚ) < 1/2 then ⌊q⌋
  else if 1/2 < q - (⌊q⌋ : ℚ) then ⌊q⌋ + 1
  else if ⌊q⌋ % 2 = 0 then ⌊q⌋ else ⌊q⌋ + 1

/-- Python's `round(q, 2)`: round to 2 decimal places. -/
def round2 (q : ℚ) : ℚ := (roundHalfEven (q * 100) : ℚ) / 100

/-- A date string "y-m-d", modelled by its components. -/
structure DateYMD where
  year : Nat
  month : Nat
  day : Nat
deriving DecidableEq, Repr

/-- Comparison of two dates read as year-month-day calendar dates
(lexicographic on the components). -/
def dateLE (a b : DateYMD) : Prop :=
  a.year < b.year ∨
    (a.year = b.year ∧
      (a.month < b.month ∨ (a.month = b.month ∧ a.day ≤ b.day)))

/-- Number of days in a month of the (proleptic) Gregorian calendar. -/
def daysInMonth (year month : Nat) : Nat :=
  if month = 2 then
    if year % 4 = 0 ∧ (year % 100 ≠ 0 ∨ year % 400 = 0) then 29 else 28
  else if month = 4 ∨ month = 6 ∨ month = 9 ∨ month = 11 then 30
  else 31

/-- The day component of the date actually exists in its month component. -/
def validDate (d : DateYMD) : Prop :=
  1 ≤ d.month ∧ d.month ≤ 12 ∧ 1 ≤ d.day ∧ d.day ≤ daysInMonth d.year d.month

instance (d : DateYMD) : Decidable (validDate d) := by
  unfold validDate; infer_instance

/-- One row of the generated table, base fields only
(column names as in the source). -/
structure CustomerRecord where
  pivot_date : DateYMD
  customer_id : Nat
  approved_at : DateYMD
  days_delinquent : Nat
  monthly_recurr_revenue : ℚ
  device_value : Nat
deriving DecidableEq, Repr

/-- The outcomes of the random draws `generate_mock_data` makes for
customer `i`: one arbitrary natural per `randint` draw (mapped into the
requested range by `randintVal`), one boolean for the
`random.random() > 0.75` delinquency gate, and one index draw for
`random.choice` over the device-price list. -/
structure RandOracle where
  pivotMonthDraw : Nat → Nat
  pivotDayDraw : Nat → Nat
  apprMonthDraw : Nat → Nat
  apprDayDraw : Nat → Nat
  delinqGate : Nat → Bool
  delinqDaysDraw : Nat → Nat
  deviceDraw : Nat → Nat

/-- Value `random.randint(a, b)` returns for a given raw draw: some
element of `[a, b]`, every element being reachable. -/
def randintVal (a b draw : Nat) : Nat := a + draw % (b - a + 1)

/-- `random.randint(a, b)`: defined when `a ≤ b`, otherwise Python
raises `ValueError`. -/
def randint (a b draw : Nat) : Option Nat :=
  if a ≤ b then some (randintVal a b draw) else none

/-- `random.choice(l)`: an element of `l`, any index being reachable;
raises on an empty sequence. -/
def listChoice (l : List Nat) (draw : Nat) : Option Nat :=
  if l.length = 0 then none else some (l.getD (draw % l.length) 0)

/-- `device_prices = [800, 1200, 2000, 3000]` from `generate_mock_data`. -/
def device_prices : List Nat := [800, 1200, 2000, 3000]

/-- The record `generate_mock_data` builds for customer index `i`,
when every draw is in range (`genRecord_eq` shows it always is):
pivot month/day from `randint(1,12)` / `randint(1,31)`; approved month/day
from `randint(m,12)` / `randint(d,31)` re-reading the pivot components;
delinquency days `randint(0,65)` gated by a boolean draw; device value
chosen from `device_prices`; monthly revenue `round(device/12, 2)`. -/
def genRecordVal (o : RandOracle) (i : Nat) : CustomerRecord :=
  let pm := randintVal 1 12 (o.pivotMonthDraw i)
  let pd := randintVal 1 31 (o.pivotDayDraw i)
  let am := randintVal pm 12 (o.apprMonthDraw i)
  let ad := randintVal pd 31 (o.apprDayDraw i)
  let p : Nat := if o.delinqGate i then 1 else 0
  let dd := randintVal 0 65 (o.delinqDaysDraw i)
  let dv := device_prices.getD (o.deviceDraw i % device_prices.length) 0
  { pivot_date := ⟨2024, pm, pd⟩
    customer_id := i + 1
    approved_at := ⟨2024, am, ad⟩
    days_delinquent := p * dd
    monthly_recurr_revenue := round2 ((dv : ℚ) / 12)
    device_value := dv }

/-- The record built for customer index `i`, with each fallible draw
(`randint`, `random.choice`) propagating failure. -/
def genRecord (o : RandOracle) (i : Nat) : Option CustomerRecord := do
  let pm ← randint 1 12 (o.pivotMonthDraw i)
  let pd ← randint 1 31 (o.pivotDayDraw i)
  let am ← randint pm 12 (o.apprMonthDraw i)
  let ad ← randint pd 31 (o.apprDayDraw i)
  let p : Nat := if o.delinqGate i then 1 else 0
  let dd ← randint 0 65 (o.delinqDaysDraw i)
  let dv ← listChoice device_prices (o.deviceDraw i)
  some
    { pivot_date := ⟨2024, pm, pd⟩
      customer_id := i + 1
      approved_at := ⟨2024, am, ad⟩
      days_delinquent := p * dd
      monthly_recurr_revenue := round2 ((dv : ℚ) / 12)
      device_value := dv }

/-- Sequence a list of fallible computations (failure of any element
aborts the whole call, as a raised exception would). -/
def optSeq : List (Option α) → Option (List α)
  | [] => some []
  | x :: xs => do
    let a ← x
    let l ← optSeq xs
    some (a :: l)

/-- `generate_mock_data(num_customers)`: the table of generated records,
`none` modelling a raised exception. -/
def generate_mock_data (num_customers : Nat) (o : RandOracle) :
    Option (List CustomerRecord) :=
  optSeq ((List.range num_customers).map (genRecord o))

/-- One row after `eval_data`: the base columns plus the three derived
columns the source adds. -/
structure EvalRecord extends CustomerRecord where
  daily_recurrent_revenue : ℚ
  cost_to_fragile : ℚ
  thermostat : String
deriving DecidableEq, Repr

/-- The inner helper `_measure_impact` of `eval_data`: note the fixed
constant 75 — the `threshold` argument of `eval_data` is not consulted. -/
def _measure_impact (cost : ℚ) : String :=
  if cost = 0 then "green"
  else if cost ≤ 75 then "yellow"
  else "red"

/-- Default value of the `threshold` parameter in the source signature
`eval_data(data, threshold: int = 90)`. -/
def eval_data_default_threshold : ℤ := 90

/-- `eval_data(data, threshold)`: adds `daily_recurrent_revenue`
(= `round(monthly_recurr_revenue / 31, 2)`), `cost_to_fragile`
(= `daily_recurrent_revenue * days_delinquent`) and `thermostat`
(= `_measure_impact(cost_to_fragile)`) to every row.  The `threshold`
parameter appears in the signature but is never read by the body. -/
def eval_data (data : List CustomerRecord) (threshold : ℤ) :
    List EvalRecord :=
  data.map fun r =>
    let drr := round2 (r.monthly_recurr_revenue / 31)
    let cost := drr * (r.days_delinquent : ℚ)
    { toCustomerRecord := r
      daily_recurrent_revenue := drr
      cost_to_fragile := cost
      thermostat := _measure_impact cost }

/-- The aggregation `data['thermostat'].value_counts()` in
`generate_pie_chart`: one (tag, count) pair per distinct tag occurring in
the column.  (pandas orders the pairs by descending count; the order is
irrelevant to every stated property and left as first occurrence.) -/
def value_counts (xs : List String) : List (String × Nat) :=
  xs.dedup.map fun t => (t, xs.count t)

/-- The slices of the pie chart `generate_pie_chart` draws: one slice per
tag returned by `value_counts`, sized by its count. -/
def generate_pie_chart_slices (data : List EvalRecord) :
    List (String × Nat) :=
  value_counts (data.map EvalRecord.thermostat)

/-! ## Basic lemmas about the embedding -/

/-- A `randint` value never falls below the lower end of the range. -/
theorem randintVal_ge (a b d : Nat) : a ≤ randintVal a b d :=
  Nat.le_add_right a _

/-- A `randint` value never exceeds the upper end of the range. -/
theorem randintVal_le {a b : Nat} (h : a ≤ b) (d : Nat) :
    randintVal a b d ≤ b := by
  have hm : d % (b - a + 1) < b - a + 1 := Nat.mod_lt _ (by omega)
  unfold randintVal
  omega

/-- `randint` succeeds exactly when the range is sensible. -/
theorem randint_eq {a b : Nat} (h : a ≤ b) (d : Nat) :
    randint a b d = some (randintVal a b d) := if_pos h

/-- Every draw of `generate_mock_data` is in range, so building one
record never fails and yields `genRecordVal`. -/
theorem genRecord_eq (o : RandOracle) (i : Nat) :
    genRecord o i = some (genRecordVal o i) := by
  have h1 : randintVal 1 12 (o.pivotMonthDraw i) ≤ 12 :=
    randintVal_le (by norm_num) _
  have h2 : randintVal 1 31 (o.pivotDayDraw i) ≤ 31 :=
    randintVal_le (by norm_num) _
  simp [genRecord, genRecordVal, randint, listChoice, device_prices, h1, h2]

/-- Sequencing pointwise-successful computations succeeds with the
pointwise results. -/
theorem optSeq_map_some {α β : Type} (f : α → Option β) (g : α → β)
    (l : List α) (h : ∀ x ∈ l, f x = some (g x)) :
    optSeq (l.map f) = some (l.map g) := by
  induction l with
  | nil => rfl
  | cons a l ih =>
    have ha := h a (List.mem_cons_self a l)
    have hl := ih fun x hx => h x (List.mem_cons_of_mem a hx)
    simp [optSeq, ha, hl]

/-- `generate_mock_data` always succeeds, with the records given by
`genRecordVal`. -/
theorem generate_mock_data_eq (n : Nat) (o : RandOracle) :
    generate_mock_data n o = some ((List.range n).map (genRecordVal o)) :=
  optSeq_map_some _ _ _ fun i _ => genRecord_eq o i

/-- The derived fields `eval_data` attaches to a row, read back from the
output row itself (the base columns are carried over unchanged). -/
theorem eval_data_mem {data : List CustomerRecord} {t : ℤ} {r : EvalRecord}
    (hr : r ∈ eval_data data t) :
    r.toCustomerRecord ∈ data ∧
    r.daily_recurrent_revenue = round2 (r.monthly_recurr_revenue / 31) ∧
    r.cost_to_fragile = r.daily_recurrent_revenue * (r.days_delinquent : ℚ) ∧
    r.thermostat = _measure_impact r.cost_to_fragile := by
  simp only [eval_data, List.mem_map] at hr
  obtain ⟨b, hb, rfl⟩ := hr
  exact ⟨hb, rfl, rfl, rfl⟩

/-- Rounding half to even preserves non-negativity. -/
theorem roundHalfEven_nonneg {q : ℚ} (h : 0 ≤ q) : 0 ≤ roundHalfEven q := by
  have h0 : (0 : ℤ) ≤ ⌊q⌋ := Int.floor_nonneg.mpr h
  unfold roundHalfEven
  split
  · exact h0
  · split
    · omega
    · split <;> omega

/-- `round2` preserves non-negativity. -/
theorem round2_nonneg {q : ℚ} (h : 0 ≤ q) : 0 ≤ round2 q := by
  unfold round2
  have : (0 : ℤ) ≤ roundHalfEven (q * 100) :=
    roundHalfEven_nonneg (by positivity)
  positivity

/-! ## Concrete fixtures used to instantiate theorems with hypotheses -/

/-- A concrete input row: 310 monthly revenue, 5 days delinquent
(daily revenue 10, cost 50, so `_measure_impact` answers "yellow"). -/
def wRec : CustomerRecord :=
  { pivot_date := ⟨2024, 1, 1⟩
    customer_id := 1
    approved_at := ⟨2024, 1, 1⟩
    days_delinquent := 5
    monthly_recurr_revenue := 310
    device_value := 800 }

/-- The row `eval_data` produces from `wRec` (fields written exactly as
the evaluator computes them, so the membership below is definitional). -/
def wEval : EvalRecord :=
  { toCustomerRecord := wRec
    daily_recurrent_revenue := round2 (wRec.monthly_recurr_revenue / 31)
    cost_to_fragile :=
      round2 (wRec.monthly_recurr_revenue / 31) * (wRec.days_delinquent : ℚ)
    thermostat :=
      _measure_impact
        (round2 (wRec.monthly_recurr_revenue / 31) * (wRec.days_delinquent : ℚ)) }

theorem wEval_mem : wEval ∈ eval_data [wRec] 90 := List.mem_singleton.mpr rfl

/-! ## The claims -/

/-- Claim C3: for every record in an evaluated collection, the daily
recurring revenue equals the monthly recurring revenue divided by 31,
rounded to 2 decimal places. -/
theorem eval_daily_recurrent_revenue_spec (data : List CustomerRecord)
    (t : ℤ) (r : EvalRecord) (hr : r ∈ eval_data data t) :
    r.daily_recurrent_revenue = round2 (r.monthly_recurr_revenue / 31) :=
  (eval_data_mem hr).2.1

theorem eval_daily_recurrent_revenue_spec_witness :
    wEval.daily_recurrent_revenue = round2 (wEval.monthly_recurr_revenue / 31) :=
  eval_daily_recurrent_revenue_spec [wRec] 90 wEval wEval_mem

/-- Claim C4: for every record in an evaluated collection, the cost to
the business equals the daily recurring revenue multiplied by the number
of delinquent days. -/
theorem eval_cost_to_fragile_spec (data : List CustomerRecord)
    (t : ℤ) (r : EvalRecord) (hr : r ∈ eval_data data t) :
    r.cost_to_fragile = r.daily_recurrent_revenue * (r.days_delinquent : ℚ) :=
  (eval_data_mem hr).2.2.1

theorem eval_cost_to_fragile_spec_witness :
    wEval.cost_to_fragile = wEval.daily_recurrent_revenue * (wEval.days_delinquent : ℚ) :=
  eval_cost_to_fragile_spec [wRec] 90 wEval wEval_mem

/-- Claim C5: evaluation neither adds nor removes records and leaves
every base field of every record unchanged — projecting the evaluated
rows back to their base columns returns the input exactly (the
`EvalRecord` structure adds exactly the three derived columns). -/
theorem eval_data_preserves_base (data : List CustomerRecord) (t : ℤ) :
    (eval_data data t).map EvalRecord.toCustomerRecord = data ∧
    (eval_data data t).length = data.length := by
  constructor
  · rw [eval_data, List.map_map]
    show List.map id data = data
    exact List.map_id data
  · rw [eval_data, List.length_map]

/-- Claim C6: the data generator succeeds for every non-negative count,
returning exactly that many records (each with all base fields
populated, by construction of `CustomerRecord`); count 0 yields an
empty collection. -/
theorem generate_mock_data_total (n : Nat) (o : RandOracle) :
    (∃ l, generate_mock_data n o = some l ∧ l.length = n) ∧
    generate_mock_data 0 o = some [] := by
  refine ⟨⟨(List.range n).map (genRecordVal o), generate_mock_data_eq n o, ?_⟩, ?_⟩
  · rw [List.length_map, List.length_range]
  · exact generate_mock_data_eq 0 o

/-- Claim C9: the pie chart draws one slice per risk tag present in the
data (no tag twice, no absent tag), and the per-tag counts backing the
slices sum to the number of input records. -/
theorem pie_chart_slices_partition (data : List EvalRecord) :
    ((generate_pie_chart_slices data).map Prod.snd).sum = data.length ∧
    ((generate_pie_chart_slices data).map Prod.fst).Nodup ∧
    ∀ t, t ∈ (generate_pie_chart_slices data).map Prod.fst ↔
      ∃ r ∈ data, r.thermostat = t := by
  refine ⟨?_, ?_, ?_⟩
  · rw [generate_pie_chart_slices, value_counts, List.map_map]
    show ((data.map EvalRecord.thermostat).dedup.map
        fun x => (data.map EvalRecord.thermostat).count x).sum = data.length
    rw [List.sum_map_count_dedup_eq_length, List.length_map]
  · rw [generate_pie_chart_slices, value_counts, List.map_map]
    show ((data.map EvalRecord.thermostat).dedup.map fun x => x).Nodup
    rw [List.map_id']
    exact List.nodup_dedup _
  · intro t
    rw [generate_pie_chart_slices, value_counts, List.map_map]
    show t ∈ (data.map EvalRecord.thermostat).dedup.map (fun x => x) ↔ _
    rw [List.map_id', List.mem_dedup, List.mem_map]

/-- Claim C10: the threshold argument has no influence on `eval_data`:
any two threshold values produce identical output on every input. -/
theorem eval_data_threshold_irrelevant (data : List CustomerRecord)
    (t1 t2 : ℤ) : eval_data data t1 = eval_data data t2 := rfl

/-- Claim C1: for every evaluated record (with the non-negative monthly
revenue the data model prescribes), the risk tag is "green" iff the cost
is exactly zero, "red" iff the cost exceeds 75, and "yellow" iff the
cost is strictly positive and at most 75. -/
theorem eval_risk_tag_iff (data : List CustomerRecord) (t : ℤ)
    (r : EvalRecord) (hr : r ∈ eval_data data t)
    (hm : 0 ≤ r.monthly_recurr_revenue) :
    (r.thermostat = "green" ↔ r.cost_to_fragile = 0) ∧
    (r.thermostat = "red" ↔ 75 < r.cost_to_fragile) ∧
    (r.thermostat = "yellow" ↔
      0 < r.cost_to_fragile ∧ r.cost_to_fragile ≤ 75) := by
  obtain ⟨-, hdrr, hcost, htag⟩ := eval_data_mem hr
  have hd0 : 0 ≤ r.daily_recurrent_revenue := by
    rw [hdrr]
    exact round2_nonneg (div_nonneg hm (by norm_num))
  have hc0 : 0 ≤ r.cost_to_fragile := by
    rw [hcost]
    exact mul_nonneg hd0 (Nat.cast_nonneg _)
  rw [htag]
  unfold _measure_impact
  by_cases h1 : r.cost_to_fragile = 0
  · simp [h1]
  · by_cases h2 : r.cost_to_fragile ≤ 75
    · rw [if_neg h1, if_pos h2]
      have hpos : 0 < r.cost_to_fragile := lt_of_le_of_ne hc0 (Ne.symm h1)
      refine ⟨by simp [h1], ?_, by simp [hpos, h2]⟩
      constructor
      · intro h; exact absurd h (by simp)
      · intro h; exact absurd h2 (not_le.mpr h)
    · rw [if_neg h1, if_neg h2]
      refine ⟨by simp [h1], by simp [not_le.mp h2], ?_⟩
      constructor
      · intro h; exact absurd h (by simp)
      · intro h; exact absurd h.2 h2

theorem eval_risk_tag_iff_witness :
    (0 : ℚ) ≤ wEval.monthly_recurr_revenue ∧
    ((wEval.thermostat = "green" ↔ wEval.cost_to_fragile = 0) ∧
     (wEval.thermostat = "red" ↔ 75 < wEval.cost_to_fragile) ∧
     (wEval.thermostat = "yellow" ↔
       0 < wEval.cost_to_fragile ∧ wEval.cost_to_fragile ≤ 75)) :=
  ⟨by norm_num [wEval, wRec],
    eval_risk_tag_iff [wRec] 90 wEval wEval_mem (by norm_num [wEval, wRec])⟩

/-- Claim C2 fails on two counts: the default threshold in the source
signature is 90, not 75; and the threshold argument does not drive the
classification — with threshold 10 a record of cost 50 is tagged
"yellow", not "red" as the claim requires for any cost above the
supplied threshold. -/
theorem eval_threshold_claim_false :
    eval_data_default_threshold ≠ 75 ∧
    ¬ ∀ (data : List CustomerRecord) (t : ℤ), ∀ r ∈ eval_data data t,
        (t : ℚ) < r.cost_to_fragile → r.thermostat = "red" := by
  constructor
  · decide
  · intro h
    have h10 : ((10 : ℤ) : ℚ) < wEval.cost_to_fragile := by
      norm_num [wEval, wRec, round2, roundHalfEven]
    have hred := h [wRec] 10 wEval (List.mem_singleton.mpr rfl) h10
    norm_num [wEval, wRec, _measure_impact, round2, roundHalfEven] at hred
    simp at hred

/-- Claim C2 (amended): the evaluator's threshold parameter defaults to
90 and is ignored; for every supplied threshold each record is
classified against the fixed constant 75: cost 0 → green,
0 < cost ≤ 75 → yellow, cost > 75 → red. -/
theorem eval_fixed_threshold_classification (data : List CustomerRecord)
    (t : ℤ) (r : EvalRecord) (hr : r ∈ eval_data data t) :
    eval_data_default_threshold = 90 ∧
    (r.cost_to_fragile = 0 → r.thermostat = "green") ∧
    (0 < r.cost_to_fragile ∧ r.cost_to_fragile ≤ 75 →
      r.thermostat = "yellow") ∧
    (75 < r.cost_to_fragile → r.thermostat = "red") := by
  obtain ⟨-, -, -, htag⟩ := eval_data_mem hr
  rw [htag]
  unfold _measure_impact
  refine ⟨rfl, fun h0 => by simp [h0], fun hy => ?_, fun h75 => ?_⟩
  · rw [if_neg (ne_of_gt hy.1), if_pos hy.2]
  · rw [if_neg (by intro h; rw [h] at h75; norm_num at h75),
      if_neg (not_le.mpr h75)]

theorem eval_fixed_threshold_classification_witness :
    eval_data_default_threshold = 90 ∧
    (wEval.cost_to_fragile = 0 → wEval.thermostat = "green") ∧
    (0 < wEval.cost_to_fragile ∧ wEval.cost_to_fragile ≤ 75 →
      wEval.thermostat = "yellow") ∧
    (75 < wEval.cost_to_fragile → wEval.thermostat = "red") :=
  eval_fixed_threshold_classification [wRec] 90 wEval wEval_mem

/-- An all-zero draw stream, used to instantiate the generator
theorems. -/
def wOracle : RandOracle :=
  ⟨fun _ => 0, fun _ => 0, fun _ => 0, fun _ => 0,
   fun _ => false, fun _ => 0, fun _ => 0⟩

/-- Claim C7: under any outcome of the random draws, every generated
record's approved_at date, read as a year-month-day calendar date, is on
or after its pivot_date. -/
theorem approved_at_ge_pivot_date (n : Nat) (o : RandOracle)
    (l : List CustomerRecord) (hl : generate_mock_data n o = some l) :
    ∀ r ∈ l, dateLE r.pivot_date r.approved_at := by
  rw [generate_mock_data_eq] at hl
  obtain rfl := Option.some.inj hl
  intro r hr
  rw [List.mem_map] at hr
  obtain ⟨i, -, rfl⟩ := hr
  have hm := randintVal_ge (randintVal 1 12 (o.pivotMonthDraw i)) 12
    (o.apprMonthDraw i)
  have hd := randintVal_ge (randintVal 1 31 (o.pivotDayDraw i)) 31
    (o.apprDayDraw i)
  simp only [genRecordVal, dateLE]
  refine Or.inr ⟨trivial, ?_⟩
  omega

theorem approved_at_ge_pivot_date_witness :
    dateLE (genRecordVal wOracle 0).pivot_date
      (genRecordVal wOracle 0).approved_at :=
  approved_at_ge_pivot_date 1 wOracle
    ((List.range 1).map (genRecordVal wOracle))
    (generate_mock_data_eq 1 wOracle) (genRecordVal wOracle 0) (by simp)

/-- The draw stream that makes the generator emit the pivot date
2024-2-30: month draw 1 (`randint(1,12)` → 2), day draw 29
(`randint(1,31)` → 30). -/
def cxOracle : RandOracle :=
  ⟨fun _ => 1, fun _ => 29, fun _ => 0, fun _ => 0,
   fun _ => false, fun _ => 0, fun _ => 0⟩

/-- Claim C8 is false: the generator draws the day of month uniformly
from [1, 31] whatever the month, so it can emit the date 2024-2-30,
whose day does not exist in February (29 days in the 2024 leap year). -/
theorem pivot_date_invalid_counterexample :
    (generate_mock_data 1 cxOracle).map (List.map CustomerRecord.pivot_date) =
      some [⟨2024, 2, 30⟩] ∧
    ¬ validDate ⟨2024, 2, 30⟩ := by
  exact ⟨rfl, by decide⟩

/-- Claim C8 (amended): every generated pivot_date and approved_at has
its month component in [1, 12] and its day component in [1, 31], but the
day need not exist in the month (2024-2-30 is reachable). -/
theorem generated_dates_bounded (n : Nat) (o : RandOracle)
    (l : List CustomerRecord) (hl : generate_mock_data n o = some l) :
    ∀ r ∈ l,
      (1 ≤ r.pivot_date.month ∧ r.pivot_date.month ≤ 12 ∧
        1 ≤ r.pivot_date.day ∧ r.pivot_date.day ≤ 31) ∧
      (1 ≤ r.approved_at.month ∧ r.approved_at.month ≤ 12 ∧
        1 ≤ r.approved_at.day ∧ r.approved_at.day ≤ 31) := by
  rw [generate_mock_data_eq] at hl
  obtain rfl := Option.some.inj hl
  intro r hr
  rw [List.mem_map] at hr
  obtain ⟨i, -, rfl⟩ := hr
  have h1 := randintVal_ge 1 12 (o.pivotMonthDraw i)
  have h2 := randintVal_le (show (1 : ℕ) ≤ 12 by norm_num) (o.pivotMonthDraw i)
  have h3 := randintVal_ge 1 31 (o.pivotDayDraw i)
  have h4 := randintVal_le (show (1 : ℕ) ≤ 31 by norm_num) (o.pivotDayDraw i)
  have h5 := randintVal_ge (randintVal 1 12 (o.pivotMonthDraw i)) 12
    (o.apprMonthDraw i)
  have h6 := randintVal_le h2 (o.apprMonthDraw i)
  have h7 := randintVal_ge (randintVal 1 31 (o.pivotDayDraw i)) 31
    (o.apprDayDraw i)
  have h8 := randintVal_le h4 (o.apprDayDraw i)
  exact ⟨⟨h1, h2, h3, h4⟩, h1.trans h5, h6, h3.trans h7, h8⟩

theorem generated_dates_bounded_witness :
    (1 ≤ (genRecordVal wOracle 0).pivot_date.month ∧
      (genRecordVal wOracle 0).pivot_date.month ≤ 12 ∧
      1 ≤ (genRecordVal wOracle 0).pivot_date.day ∧
      (genRecordVal wOracle 0).pivot_date.day ≤ 31) ∧
    (1 ≤ (genRecordVal wOracle 0).approved_at.month ∧
      (genRecordVal wOracle 0).approved_at.month ≤ 12 ∧
      1 ≤ (genRecordVal wOracle 0).approved_at.day ∧
      (genRecordVal wOracle 0).approved_at.day ≤ 31) :=
  generated_dates_bounded 1 wOracle
    ((List.range 1).map (genRecordVal wOracle))
    (generate_mock_data_eq 1 wOracle) (genRecordVal wOracle 0) (by simp)

end FragileThermostat
